import Mathlib

/-!
Verification development for the jira-confluence-integration repository.

The definitions below are a shallow embedding of the core logic of
`src/atlasian.py` (artifact file-name parsing, label catalog, predecessor
resolution, eligibility decision, and the upload/label/demote promotion
protocol of the `Confluence` class).  Pure Python functions become Lean
functions; HTTP effects are abstracted into explicit inputs (the sequence of
label-write status codes, the upload result) and explicit outcome records;
Python exceptions become explicit error constructors of `Except`.
-/

namespace JCI

/-! ## Character-level helpers for the file-name regex

The source parses file names with the Python regex (compiled with
`re.IGNORECASE` and applied with `re.search`, anchored by `^...$`):

  "^NTG7_Module_Test_(Star_\d+)?_?(rsu|hu|codd)_(([A-Z]\d+\.\d+)_(\d{4}-\d{2}-\d{2})_(v\d+\.\d+\.\d+\.?\d?)).xlsx$"

The matcher below implements exactly this pattern.  Greedy maximal-munch is
used for every `\d+` and for the optional `(Star_\d+)?` and `_?` pieces: for
this particular pattern, backtracking into those pieces can never turn a
failure into a success (each is followed by a token that cannot start with a
digit resp. with the given characters), so maximal-munch agrees with Python's
backtracking engine.  The only place where Python's engine genuinely
backtracks is the tail `\d+\.?\d?.xlsx$` (note the unescaped `.` before
`xlsx`, which matches any non-newline character); that backtracking is
implemented explicitly in `vsfx` and `verTailRev`.  `$` matches at the end of
the string or just before one final newline.
-/

/-- Case-insensitively strip the literal `lit` from the front of `s`,
returning the matched original characters and the remainder (regex literal
matching under `re.IGNORECASE`). -/
def ciStrip : List Char → List Char → Option (List Char × List Char)
  | [], s => some ([], s)
  | _ :: _, [] => none
  | l :: ls, c :: cs =>
    if l.toLower == c.toLower then
      match ciStrip ls cs with
      | some (m, rest) => some (c :: m, rest)
      | none => none
    else none

/-- Maximal run of ASCII digits at the front of the list (`\d+` / `\d*`). -/
def takeDigits : List Char → (List Char × List Char)
  | [] => ([], [])
  | c :: cs =>
    if c.isDigit then
      let (d, r) := takeDigits cs
      (c :: d, r)
    else ([], c :: cs)

/-- Exactly `n` ASCII digits at the front of the list (`\d{n}`). -/
def takeExactDigits : Nat → List Char → Option (List Char × List Char)
  | 0, s => some ([], s)
  | _ + 1, [] => none
  | n + 1, c :: cs =>
    if c.isDigit then
      match takeExactDigits n cs with
      | some (d, r) => some (c :: d, r)
      | none => none
    else none

/-- Python's `$` (without `re.MULTILINE`): matches at the very end of the
string or just before a single final newline. -/
def dollarEnd : List Char → Bool
  | [] => true
  | ['\n'] => true
  | _ => false

/-- Match the pattern tail `.xlsx$`: one arbitrary non-newline character (the
unescaped dot of the source pattern), then the literal `xlsx`
(case-insensitive), then `$`. -/
def extTail (s : List Char) : Bool :=
  match s with
  | [] => false
  | c :: rest =>
    if c == '\n' then false
    else
      match ciStrip "xlsx".data rest with
      | some (_, r) => dollarEnd r
      | none => false

/-- Greedy match of `\.?\d?` followed by `.xlsx$` against `u`; returns the
characters consumed by `\.?\d?` (which belong to capture group 6), trying the
alternatives in the order Python's backtracking engine does:
`.digit`, `.`, `digit`, nothing. -/
def vsfx (u : List Char) : Option (List Char) :=
  match u with
  | '.' :: rest =>
    match rest with
    | d :: u2 =>
      if d.isDigit && extTail u2 then some ['.', d]
      else if extTail rest then some ['.']
      else if extTail ('.' :: rest) then some []
      else none
    | [] =>
      if extTail rest then some ['.']
      else if extTail ('.' :: rest) then some []
      else none
  | d :: u2 =>
    if d.isDigit && extTail u2 then some [d]
    else if extTail u then some []
    else none
  | [] => none

/-- Backtracking over the third `\d+` of the version: `revTaken` is the
reversed current candidate for the digit run (initially the maximal run),
`rest` the remainder.  Python's engine tries the longest run first, then gives
back one digit at a time (never below one digit).  On success, returns the
version characters after the second dot: the digit run plus whatever
`\.?\d?` consumed. -/
def verTailRev : List Char → List Char → Option (List Char)
  | [], _ => none
  | [d], rest =>
    match vsfx rest with
    | some extra => some ([d] ++ extra)
    | none => none
  | d :: ds, rest =>
    match vsfx rest with
    | some extra => some ((d :: ds).reverse ++ extra)
    | none => verTailRev ds (d :: rest)

/-- Match `v\d+\.\d+\.\d+\.?\d?` immediately followed by `.xlsx$`, consuming
the whole remainder of the input; returns the characters captured by group 6
(the version). -/
def matchVersion (s : List Char) : Option (List Char) :=
  match s with
  | [] => none
  | v :: s1 =>
    if v.toLower == 'v' then
      match takeDigits s1 with
      | ([], _) => none
      | (d1, s2) =>
        match s2 with
        | '.' :: s3 =>
          match takeDigits s3 with
          | ([], _) => none
          | (d2, s4) =>
            match s4 with
            | '.' :: s5 =>
              match takeDigits s5 with
              | ([], _) => none
              | (d3, s6) =>
                match verTailRev d3.reverse s6 with
                | some tail => some (v :: (d1 ++ '.' :: (d2 ++ '.' :: tail)))
                | none => none
            | _ => none
        | _ => none
    else none

/-- Match the release code `[A-Z]\d+\.\d+` (case-insensitive, so any ASCII
letter), returning the captured characters (group 4) and the remainder. -/
def matchRelease (s : List Char) : Option (List Char × List Char) :=
  match s with
  | [] => none
  | c :: s1 =>
    if c.isAlpha then
      match takeDigits s1 with
      | ([], _) => none
      | (d1, s2) =>
        match s2 with
        | '.' :: s3 =>
          match takeDigits s3 with
          | ([], _) => none
          | (d2, s4) => some (c :: (d1 ++ '.' :: d2), s4)
        | _ => none
    else none

/-- Match the date `\d{4}-\d{2}-\d{2}`, returning the captured characters
(group 5) and the remainder. -/
def matchDateChars (s : List Char) : Option (List Char × List Char) :=
  match takeExactDigits 4 s with
  | none => none
  | some (y, s1) =>
    match s1 with
    | '-' :: s2 =>
      match takeExactDigits 2 s2 with
      | none => none
      | some (m, s3) =>
        match s3 with
        | '-' :: s4 =>
          match takeExactDigits 2 s4 with
          | none => none
          | some (d, s5) => some (y ++ '-' :: (m ++ '-' :: d), s5)
        | _ => none
    | _ => none

/-- Raw capture groups of the file-name regex: group 1 (`Star_\d+`, optional),
group 2 (module), group 4 (release code), group 5 (date) and group 6
(version), all with the original input characters.  Group 3 is their
concatenation `release_date_version`. -/
structure RawGroups where
  star : Option (List Char)
  module : List Char
  release : List Char
  dateChars : List Char
  version : List Char

/-- Match the star part `(Star_\d+)?_?` at the front of `s1`: the optional
capture group followed by an optional underscore.  If `Star_` matches but no
digit follows, the whole group fails and matching proceeds without it (as in
the source regex). -/
def matchStarPart (s1 : List Char) : (Option (List Char) × List Char) :=
  let starStep :=
    match ciStrip "Star_".data s1 with
    | some (m, r) =>
      match takeDigits r with
      | ([], _) => (none, s1)
      | (ds, r2) => (some (m ++ ds), r2)
    | none => (none, s1)
  match starStep with
  | (st, s2) =>
    match s2 with
    | '_' :: t => (st, t)
    | _ => (st, s2)

/-- Match the module alternation `(rsu|hu|codd)` case-insensitively. -/
def matchModule (s : List Char) : Option (List Char × List Char) :=
  match ciStrip "rsu".data s with
  | some (m, r) => some (m, r)
  | none =>
    match ciStrip "hu".data s with
    | some (m, r) => some (m, r)
    | none => ciStrip "codd".data s

/-- Full match of the source file-name pattern against the character list of
the file name, producing the capture groups, or `none` when `re.search`
returns no match. -/
def matchName (s : List Char) : Option RawGroups :=
  match ciStrip "NTG7_Module_Test_".data s with
  | none => none
  | some (_, s1) =>
    match matchStarPart s1 with
    | (star?, s3) =>
      match matchModule s3 with
      | none => none
      | some (mod, s4) =>
        match s4 with
        | '_' :: s5 =>
          match matchRelease s5 with
          | none => none
          | some (rel, s6) =>
            match s6 with
            | '_' :: s7 =>
              match matchDateChars s7 with
              | none => none
              | some (dt, s8) =>
                match s8 with
                | '_' :: s9 =>
                  match matchVersion s9 with
                  | none => none
                  | some ver =>
                    some { star := star?, module := mod, release := rel,
                           dateChars := dt, version := ver }
                | _ => none
            | _ => none
        | _ => none

/-! ## Dates (`datetime.strptime(..., "%Y-%m-%d")`) -/

/-- Calendar date as produced by `datetime.strptime(s, "%Y-%m-%d")`. -/
structure PyDate where
  year : Nat
  month : Nat
  day : Nat
deriving DecidableEq, Repr

/-- Numeric value of a list of ASCII digit characters. -/
def digitsToNat (l : List Char) : Nat :=
  l.foldl (fun a c => 10 * a + (c.toNat - 48)) 0

/-- Gregorian leap-year rule used by `datetime`. -/
def isLeap (y : Nat) : Bool :=
  y % 4 == 0 && (y % 100 != 0 || y % 400 == 0)

/-- Number of days of month `m` in year `y` (as validated by `datetime`). -/
def daysInMonth (y m : Nat) : Nat :=
  if m == 2 then (if isLeap y then 29 else 28)
  else if m == 4 || m == 6 || m == 9 || m == 11 then 30
  else 31

/-- Model of `datetime.strptime(s, "%Y-%m-%d")` on a string already known to
have the shape `\d{4}-\d{2}-\d{2}`: `none` models the `ValueError` raised on
an invalid calendar date (month outside 1..12, day outside the month's range,
or year 0, below `datetime.MINYEAR`). -/
def strptimeYmd (l : List Char) : Option PyDate :=
  match l with
  | [y1, y2, y3, y4, '-', m1, m2, '-', d1, d2] =>
    let y := digitsToNat [y1, y2, y3, y4]
    let m := digitsToNat [m1, m2]
    let d := digitsToNat [d1, d2]
    if 1 ≤ y ∧ 1 ≤ m ∧ m ≤ 12 ∧ 1 ≤ d ∧ d ≤ daysInMonth y m then
      some ⟨y, m, d⟩
    else none
  | _ => none

/-- Chronological strict order on dates, as `datetime.__lt__` compares two
midnight datetimes. -/
def pyDateLt (a b : PyDate) : Bool :=
  decide (a.year < b.year ∨ (a.year = b.year ∧
    (a.month < b.month ∨ (a.month = b.month ∧ a.day < b.day))))

/-! ## `parse_testfile_name` -/

/-- The dictionary built by `parse_testfile_name` on a successful match. -/
structure ParsedName where
  star : Option String
  module : String
  full_release : String
  release : String
  date : PyDate
  version : String
deriving DecidableEq, Repr

/-- Result of calling `parse_testfile_name`: the regex finds no match and the
function returns `None` (`noMatch`); the regex matches but
`datetime.strptime` raises `ValueError` on an invalid calendar date, which
the source does not catch (`valueError`); or the parsed dictionary is
returned (`ok`). -/
inductive ParseResult where
  | noMatch
  | valueError
  | ok (p : ParsedName)
deriving DecidableEq, Repr

/-- Model of `parse_testfile_name` from `src/atlasian.py`. -/
def parse_testfile_name (file_name : String) : ParseResult :=
  match matchName file_name.data with
  | none => .noMatch
  | some g =>
    match strptimeYmd g.dateChars with
    | none => .valueError
    | some d =>
      .ok { star := g.star.map (fun l => ⟨l⟩)
          , module := ⟨g.module⟩
          , full_release := ⟨g.release ++ '_' :: (g.dateChars ++ '_' :: g.version)⟩
          , release := ⟨g.release⟩
          , date := d
          , version := ⟨g.version⟩ }

/-! ## Confluence session state and attachment queries -/

/-- A Confluence attachment as the source consumes it: its `title`, its
opaque `id`, and the label names found under
`metadata.labels.results` (`parse_attachment_labels`). -/
structure Attachment where
  title : String
  id : String
  labels : List String
deriving DecidableEq, Repr

/-- The cached session state a `Confluence` object holds after `__init__`:
`self.current_labels` and `self.attachments` (with `self.attachment_titles`
derived from the latter). -/
structure ConfluenceState where
  current_labels : List String
  attachments : List Attachment
deriving DecidableEq, Repr

/-- The list `self.attachment_titles` computed in `__init__`. -/
def attachment_titles (s : ConfluenceState) : List String :=
  s.attachments.map (fun a => a.title)

/-- Model of `parse_attachment_labels`: the label names of an attachment. -/
def parse_attachment_labels (a : Attachment) : List String :=
  a.labels

/-- Model of `search_attachments_by_label`: the attachments whose label set
contains every label of `labels` (`set(labels).issubset(...)`). -/
def search_attachments_by_label (s : ConfluenceState) (labels : List String) :
    List Attachment :=
  s.attachments.filter (fun a => labels.all (fun l => (parse_attachment_labels a).contains l))

/-- Model of `get_latest_labeled_attachments`: for each label of
`self.current_labels` in order, append the attachments carrying both that
label and `"latest"`, then return their titles. -/
def get_latest_labeled_attachments (s : ConfluenceState) : List String :=
  (s.current_labels.flatMap (fun label => search_attachments_by_label s [label, "latest"])).map
    (fun a => a.title)

/-- Model of `file_exists`: membership of the file name in the cached
`self.attachment_titles`. -/
def file_exists (s : ConfluenceState) (file_name : String) : Bool :=
  (attachment_titles s).contains file_name

/-- Model of `search_attachment_by_name`: the first attachment whose title
equals `name`, or `None`. -/
def search_attachment_by_name (s : ConfluenceState) (name : String) :
    Option Attachment :=
  (s.attachments.filter (fun a => a.title == name)).head?

/-- Substring containment, Python's `needle in hay` on strings. -/
def strContains (hay needle : String) : Bool :=
  (List.range (hay.data.length + 1)).any (fun i => needle.data.isPrefixOf (hay.data.drop i))

/-- Python's `str.upper()` on the ASCII range. -/
def strUpper (s : String) : String :=
  ⟨s.data.map Char.toUpper⟩

/-- Python's `str.lower()` on the ASCII range. -/
def strLower (s : String) : String :=
  ⟨s.data.map Char.toLower⟩

/-- Python exceptions that can escape the helper functions: `TypeError`
(subscripting / calling a method on `None`) and `ValueError` (from
`datetime.strptime`). -/
inductive PyErr where
  | typeError
  | valueError
deriving DecidableEq, Repr

/-- The search prefix `f"NTG7_Module_Test_{star}{module}"` built by
`get_attachment_predecessor`, where `star` is `f'{parsed_file["star"]}_'`
when the star group is present and `''` otherwise, and `module` is the
upper-cased module group. -/
def search_pfx (p : ParsedName) : String :=
  "NTG7_Module_Test_" ++
    (match p.star with
     | some st => st ++ "_"
     | none => "") ++ strUpper p.module

/-- Model of `get_attachment_predecessor`: parse the file name (subscripting
the `None` result of a failed parse raises `TypeError`; an invalid date
raises `ValueError`), build the search prefix, then scan every title from
`get_latest_labeled_attachments`, keeping the last one that contains the
prefix; the initial value, and hence the result when nothing matches, is the
empty string. -/
def get_attachment_predecessor (s : ConfluenceState) (file_name : String) :
    Except PyErr String :=
  match parse_testfile_name file_name with
  | .noMatch => .error .typeError
  | .valueError => .error .valueError
  | .ok p =>
    .ok ((get_latest_labeled_attachments s).foldl
      (fun predecessor_file t => if strContains t (search_pfx p) then t else predecessor_file)
      "")

/-- Model of `date_is_newer`: re-parse both file names (propagating the same
exceptions) and compare only the `date` fields. -/
def date_is_newer (to_be_uploaded existing : String) : Except PyErr Bool :=
  match parse_testfile_name to_be_uploaded with
  | .noMatch => .error .typeError
  | .valueError => .error .valueError
  | .ok p =>
    match parse_testfile_name existing with
    | .noMatch => .error .typeError
    | .valueError => .error .valueError
    | .ok q => .ok (pyDateLt q.date p.date)

/-- The reasons the eligibility decision prints at each of its return sites,
matching the spec's `EligibilityVerdict` enumeration. -/
inductive Reason where
  | NAME_MISMATCH
  | ALREADY_EXISTS
  | NO_PREDECESSOR
  | NEWER_THAN_PREDECESSOR
  | PREDECESSOR_NEWER
deriving DecidableEq, Repr

/-- Eligibility verdict: the boolean the source returns together with the
reason of the return site taken. -/
structure Verdict where
  accepted : Bool
  reason : Reason
deriving DecidableEq, Repr

/-- Model of `file_eligible_for_upload`: the ordered rules of the source,
each `return` site tagged with its reason; exceptions raised by the helpers
propagate. -/
def file_eligible_for_upload (s : ConfluenceState) (file_name : String) :
    Except PyErr Verdict :=
  match parse_testfile_name file_name with
  | .noMatch => .ok ⟨false, .NAME_MISMATCH⟩
  | .valueError => .error .valueError
  | .ok _ =>
    if file_exists s file_name then .ok ⟨false, .ALREADY_EXISTS⟩
    else
      match get_attachment_predecessor s file_name with
      | .error e => .error e
      | .ok predecessor_file =>
        if predecessor_file = "" then .ok ⟨true, .NO_PREDECESSOR⟩
        else
          match date_is_newer file_name predecessor_file with
          | .error e => .error e
          | .ok b =>
            if b then .ok ⟨true, .NEWER_THAN_PREDECESSOR⟩
            else .ok ⟨false, .PREDECESSOR_NEWER⟩

/-! ## `get_current_labels` (label catalog)

The source collects the strings of `<p>` blocks whose string matches the
regex `.*\s\(current\):$` (BeautifulSoup applies `pattern.search`), then for
each such string evaluates `re.search("^(.*) \(current\).*$", value)[1]` — a
subscript that raises `TypeError` when the second pattern does not match —
and normalizes the captured name.  We model the function on the list of
`<p>`-block strings of the page.
-/

/-- Python's `\s` on the ASCII range. -/
def pyIsSpace (c : Char) : Bool :=
  c == ' ' || c == '\t' || c == '\n' || c == '\r' || c == '\x0b' || c == '\x0c'

/-- Drop one final newline, the position where Python's `$` may match in
front of the true end. -/
def trimFinalNewline (s : List Char) : List Char :=
  match s.getLast? with
  | some '\n' => s.dropLast
  | _ => s

/-- Match of the filter pattern `.*\s\(current\):$` under `re.search`: the
string (up to one final newline) ends with `(current):` immediately preceded
by a whitespace character.  (`.*` can always be taken empty with the search
starting at that whitespace character.) -/
def currentFilterMatch (s : String) : Bool :=
  let t := trimFinalNewline s.data
  let cur := "(current):".data
  if cur.isSuffixOf t then
    match (t.take (t.length - cur.length)).getLast? with
    | some w => pyIsSpace w
    | none => false
  else false

/-- Index of the last occurrence of `sep` in `t`, if any. -/
def lastOccIdx (t sep : List Char) : Option Nat :=
  (List.range (t.length + 1)).foldl
    (fun acc i => if sep.isPrefixOf (t.drop i) then some i else acc) none

/-- Group 1 of `re.search("^(.*) \(current\).*$", s)`: with `^` anchoring the
match at position 0 and `.` never matching a newline, the string (up to one
final newline) must be newline-free and contain the literal `" (current)"`;
the greedy `(.*)` captures the prefix before the last occurrence.  `none`
models a failed search (whose `[1]` subscript raises `TypeError`). -/
def extractCurrentName (s : String) : Option String :=
  let t := trimFinalNewline s.data
  if t.any (fun c => c == '\n') then none
  else
    match lastOccIdx t " (current)".data with
    | some i => some ⟨t.take i⟩
    | none => none

/-- The normalization `value.lower().replace("-", "_").replace(" ", "_")`. -/
def normalizeLabel (s : String) : String :=
  ⟨((s.data.map Char.toLower).map (fun c => if c == '-' then '_' else c)).map
    (fun c => if c == ' ' then '_' else c)⟩

/-- Exceptions of `get_current_labels`: the `TypeError` from subscripting a
failed extraction search, and the `UserWarning("Page was parsed, but no
currently used labels found")` raised when the label list is empty. -/
inductive LabelsErr where
  | typeError
  | userWarning
deriving DecidableEq, Repr

/-- The list comprehension over the filtered tag strings: extract and
normalize each name, raising (`none`) at the first failed extraction. -/
def extract_labels : List String → Option (List String)
  | [] => some []
  | v :: vs =>
    match extractCurrentName v with
    | none => none
    | some g =>
      match extract_labels vs with
      | none => none
      | some rest => some (normalizeLabel g :: rest)

/-- Model of `get_current_labels`, taking the strings of the page's `<p>`
blocks: filter them with the `(current):` pattern, extract and normalize each
name, and raise `UserWarning` when the resulting list is empty. -/
def get_current_labels (p_strings : List String) : Except LabelsErr (List String) :=
  let tag_strings := p_strings.filter currentFilterMatch
  match extract_labels tag_strings with
  | none => .error .typeError
  | some labels => if labels.isEmpty then .error .userWarning else .ok labels

/-! ## `add_label` (label-write with retry loop)

The source posts the label body once; if the status code is 500 it enters
`retry = 0; while retry < 3: sleep(3); post again; if status == 500: retry += 1`.
Note only 500-responses increment `retry`, yet the loop keeps re-posting for
any other status as well.  We model the i-th response's status code as
`statuses i` and make the loop fuel-indexed: `none` means the loop is still
running after `fuel` iterations.
-/

/-- The retry loop of `add_label`: `posts` counts the requests already made
(the index of the next response), `retry` the 500-responses seen inside the
loop, `last` the last status code received.  Returns the total number of
requests and the final status code. -/
def add_label_loop (statuses : Nat → Nat) : Nat → Nat → Nat → Nat → Option (Nat × Nat)
  | 0, posts, retry, last =>
    if retry < 3 then none else some (posts, last)
  | fuel + 1, posts, retry, last =>
    if retry < 3 then
      let r := statuses posts
      add_label_loop statuses fuel (posts + 1) (if r = 500 then retry + 1 else retry) r
    else some (posts, last)

/-- Model of `add_label`: returns the total number of label-write requests
made and the boolean result (`status_code == 200` of the final response),
or `none` when the retry loop exceeds the fuel. -/
def add_label (statuses : Nat → Nat) (fuel : Nat) : Option (Nat × Bool) :=
  let r0 := statuses 0
  if r0 = 500 then
    match add_label_loop statuses fuel 1 0 r0 with
    | none => none
    | some (posts, last) => some (posts, last = 200)
  else some (1, r0 = 200)

/-! ## `send_and_label_attachment` (promotion protocol) -/

/-- The environment of one promotion: the id returned by the upload request
(`none` models a falsy id, i.e. `if not attachment_id`) and the status codes
of the successive label-write requests. -/
structure PromoEnv where
  upload_id : Option String
  statuses : Nat → Nat

/-- Unhandled exceptions `send_and_label_attachment` can raise: a parse
failure surfacing as `TypeError`/`ValueError` (`parseCrash`), the
`IndexError` of `[...][0]` on an empty label filter, and the
`AttributeError` of `None.get("id")` when the predecessor lookup by name
finds nothing. -/
inductive PromoErr where
  | parseCrash
  | indexError
  | attrError
deriving DecidableEq, Repr

/-- Observable outcome of a promotion that terminated without an exception:
the predecessor name resolved before the upload, the uploaded attachment id,
the label list sent (if the label step was reached), the result and request
count of the label-write step, and the id of the attachment from which
`latest` was removed (if demotion was issued). -/
structure PromoOutcome where
  predecessor_name : String
  uploaded_id : Option String
  labels_sent : Option (List String)
  label_was_added : Option Bool
  label_posts : Option Nat
  demoted : Option String
deriving DecidableEq, Repr

/-- The list comprehension `[label for label in self.current_labels if "star"
in label]` (when the parsed name has a star group) resp. its `not in`
counterpart (when it has none), whose `[0]` subscript picks the main label. -/
def main_label_filter (s : ConfluenceState) (p : ParsedName) : List String :=
  match p.star with
  | some _ => s.current_labels.filter (fun l => strContains l "star")
  | none => s.current_labels.filter (fun l => !(strContains l "star"))

/-- Model of `send_and_label_attachment`: resolve the predecessor name
before the upload; stop (reporting, not raising) when the upload yields no
id; re-parse the file name, pick the main label as the first current label
containing (resp. not containing) `"star"` depending on the star group —
`[...][0]` raising `IndexError` when the filter is empty; send the three
labels with the retrying `add_label`; and only if that returned `True` and a
predecessor name was resolved, look it up by title and remove its `latest`
label.  `none` propagates a non-terminating label-write loop. -/
def send_and_label_attachment (s : ConfluenceState) (file_name : String)
    (env : PromoEnv) (fuel : Nat) : Option (Except PromoErr PromoOutcome) :=
  match get_attachment_predecessor s file_name with
  | .error _ => some (.error .parseCrash)
  | .ok predecessor_name =>
    match env.upload_id with
    | none => some (.ok ⟨predecessor_name, none, none, none, none, none⟩)
    | some attachment_id =>
      match parse_testfile_name file_name with
      | .noMatch => some (.error .parseCrash)
      | .valueError => some (.error .parseCrash)
      | .ok parsed_file_name =>
        let module_label := strLower parsed_file_name.module
        match (main_label_filter s parsed_file_name).head? with
        | none => some (.error .indexError)
        | some main_label =>
          match add_label env.statuses fuel with
          | none => none
          | some (posts, label_was_added) =>
            if label_was_added = true ∧ predecessor_name ≠ "" then
              match search_attachment_by_name s predecessor_name with
              | none => some (.error .attrError)
              | some a =>
                some (.ok ⟨predecessor_name, some attachment_id,
                  some [main_label, module_label, "latest"], some label_was_added,
                  some posts, some a.id⟩)
            else
              some (.ok ⟨predecessor_name, some attachment_id,
                some [main_label, module_label, "latest"], some label_was_added,
                some posts, none⟩)

/-- The session-visible cache after `send_and_label_attachment` returns: the
method assigns none of `self.current_labels`, `self.attachments`,
`self.attachment_titles`, so the in-session state a later
`file_eligible_for_upload` call reads is unchanged. -/
def state_after_send_and_label (s : ConfluenceState) : ConfluenceState :=
  s

/-- Modelled from the spec: the predecessor-resolution algorithm as §4.3 and
claim C2 describe it (this is a comparison definition, not a translation of
the source).  Select from the active label set the first label containing the
variant marker `"star"` when the parsed name has a variant, otherwise the
first one not containing it; consider only attachments simultaneously
carrying that selected label and `"latest"`; among those whose title contains
the search prefix, the last one encountered wins; `none` when none qualify. -/
def specFindPredecessor (s : ConfluenceState) (file_name : String) : Option String :=
  match parse_testfile_name file_name with
  | .noMatch => none
  | .valueError => none
  | .ok p =>
    let sel :=
      match p.star with
      | some _ => (s.current_labels.filter (fun l => strContains l "star")).head?
      | none => (s.current_labels.filter (fun l => !(strContains l "star"))).head?
    match sel with
    | none => none
    | some lab =>
      let qualifying :=
        (s.attachments.filter (fun a =>
          (parse_attachment_labels a).contains lab &&
          (parse_attachment_labels a).contains "latest")).map (fun a => a.title)
      (qualifying.filter (fun t => strContains t (search_pfx p))).getLast?

/-! ## Helper lemmas -/

/-- Decidable equality for `Except`, needed to evaluate the models on
concrete inputs. -/
instance instDecEqExcept {ε α : Type} [DecidableEq ε] [DecidableEq α] :
    DecidableEq (Except ε α) := fun a b =>
  match a, b with
  | .error e, .error f => decidable_of_iff (e = f) (by simp)
  | .error _, .ok _ => isFalse (by simp)
  | .ok _, .error _ => isFalse (by simp)
  | .ok x, .ok y => decidable_of_iff (x = y) (by simp)

/-- Taking the default through a cons shifts the default of `getLast?`. -/
theorem getLast?_getD_cons {α : Type} (x a : α) (L : List α) :
    ((x :: L).getLast?).getD a = (L.getLast?).getD x := by
  cases L with
  | nil => rfl
  | cons y ys =>
    rw [List.getLast?_cons_cons]
    obtain ⟨v, hv⟩ := Option.isSome_iff_exists.mp
      (List.getLast?_isSome.mpr (by simp) : ((y :: ys).getLast?).isSome = true)
    rw [hv]
    rfl

/-- A fold that keeps the last element satisfying `c` computes the last
element of the filtered list, with the initial value as default. -/
theorem foldl_last_pick {α : Type} (c : α → Bool) :
    ∀ (l : List α) (a : α),
      l.foldl (fun acc t => if c t then t else acc) a = ((l.filter c).getLast?).getD a := by
  intro l
  induction l with
  | nil => intro a; rfl
  | cons x xs ih =>
    intro a
    cases hc : c x with
    | false => simp [List.foldl_cons, List.filter_cons, hc, ih]
    | true => simp [List.foldl_cons, List.filter_cons, hc, ih, getLast?_getD_cons]

/-- `extract_labels` preserves length when it succeeds. -/
theorem extract_labels_length :
    ∀ (l : List String) (r : List String), extract_labels l = some r → r.length = l.length := by
  intro l
  induction l with
  | nil => intro r h; simp [extract_labels] at h; simp [← h]
  | cons v vs ih =>
    intro r h
    simp only [extract_labels] at h
    cases hv : extractCurrentName v with
    | none => rw [hv] at h; exact absurd h (by simp)
    | some g =>
      rw [hv] at h
      cases hrest : extract_labels vs with
      | none => rw [hrest] at h; exact absurd h (by simp)
      | some rest =>
        rw [hrest] at h
        simp only [Option.some.injEq] at h
        subst h
        simp [ih rest hrest]

/-- One unfolding step of the retry loop while `retry < 3`. -/
theorem add_label_loop_succ (st : Nat → Nat) (fuel posts retry last : Nat)
    (h : retry < 3) :
    add_label_loop st (fuel + 1) posts retry last =
      add_label_loop st fuel (posts + 1) (if st posts = 500 then retry + 1 else retry) (st posts) := by
  simp [add_label_loop, h]

/-- The retry loop stops as soon as `retry` reaches 3. -/
theorem add_label_loop_stop (st : Nat → Nat) (fuel posts last : Nat) :
    add_label_loop st fuel posts 3 last = some (posts, last) := by
  cases fuel <;> simp [add_label_loop]

/-- While no response numbered 1 or higher is a 500, the retry counter never
moves, so the loop runs out of any amount of fuel. -/
theorem add_label_loop_none_of_no500 (st : Nat → Nat)
    (h : ∀ i, 1 ≤ i → st i ≠ 500) :
    ∀ fuel posts retry last, 1 ≤ posts → retry < 3 →
      add_label_loop st fuel posts retry last = none := by
  intro fuel
  induction fuel with
  | zero => intro posts retry last _ hr; simp [add_label_loop, hr]
  | succ n ih =>
    intro posts retry last hp hr
    rw [add_label_loop_succ st n posts retry last hr, if_neg (h posts hp)]
    exact ih (posts + 1) retry (st posts) (by omega) hr

/-- When the first four responses are all 500, `add_label` makes exactly 4
requests and returns `False` (given fuel for the three retries). -/
theorem add_label_four_500 (st : Nat → Nat)
    (h0 : st 0 = 500) (h1 : st 1 = 500) (h2 : st 2 = 500) (h3 : st 3 = 500)
    (fl : Nat) (hfl : 3 ≤ fl) : add_label st fl = some (4, false) := by
  obtain ⟨k, rfl⟩ : ∃ k, fl = k + 3 := ⟨fl - 3, by omega⟩
  have hloop : add_label_loop st (k + 3) 1 0 500 = some (4, 500) := by
    show add_label_loop st (k + 2 + 1) 1 0 500 = some (4, 500)
    rw [add_label_loop_succ st (k + 2) 1 0 500 (by omega), h1, if_pos rfl]
    show add_label_loop st (k + 1 + 1) 2 1 500 = some (4, 500)
    rw [add_label_loop_succ st (k + 1) 2 1 500 (by omega), h2, if_pos rfl]
    show add_label_loop st (k + 1) 3 2 500 = some (4, 500)
    rw [add_label_loop_succ st k 3 2 500 (by omega), h3, if_pos rfl]
    exact add_label_loop_stop st k 4 500
  simp [add_label, h0, hloop]

/-! ## Claims -/

/-- C1: the eligibility decision evaluates its rules in order and
short-circuits on the first applicable one: a failed parse gives
reject/NAME_MISMATCH; otherwise an exact title match gives
reject/ALREADY_EXISTS; otherwise an empty predecessor gives
accept/NO_PREDECESSOR; otherwise the verdict is exactly the outcome of the
date comparison against the predecessor. -/
theorem C1_elig_rule_order (s : ConfluenceState) (f : String) :
    (parse_testfile_name f = .noMatch →
      file_eligible_for_upload s f = .ok ⟨false, .NAME_MISMATCH⟩) ∧
    (∀ p, parse_testfile_name f = .ok p → file_exists s f = true →
      file_eligible_for_upload s f = .ok ⟨false, .ALREADY_EXISTS⟩) ∧
    (∀ p, parse_testfile_name f = .ok p → file_exists s f = false →
      get_attachment_predecessor s f = .ok "" →
      file_eligible_for_upload s f = .ok ⟨true, .NO_PREDECESSOR⟩) ∧
    (∀ p pr, parse_testfile_name f = .ok p → file_exists s f = false →
      get_attachment_predecessor s f = .ok pr → pr ≠ "" →
      file_eligible_for_upload s f =
        (date_is_newer f pr).map
          (fun b => if b then ⟨true, .NEWER_THAN_PREDECESSOR⟩
                    else ⟨false, .PREDECESSOR_NEWER⟩)) := by
  refine ⟨?_, ?_, ?_, ?_⟩
  · intro h
    simp [file_eligible_for_upload, h]
  · intro p hp hex
    simp [file_eligible_for_upload, hp, hex]
  · intro p hp hex hpred
    simp [file_eligible_for_upload, hp, hex, hpred]
  · intro p pr hp hex hpred hne
    cases hd : date_is_newer f pr with
    | error e => simp [file_eligible_for_upload, hp, hex, hpred, hne, hd, Except.map]
    | ok b => cases b <;> simp [file_eligible_for_upload, hp, hex, hpred, hne, hd, Except.map]

/-- C1 witness: the spec's scenario 5, a file name not matching the grammar
is rejected with NAME_MISMATCH. -/
theorem C1_elig_rule_order_witness :
    file_eligible_for_upload ⟨["fup4"], []⟩ "random_report.xlsx" =
      .ok ⟨false, .NAME_MISMATCH⟩ :=
  (C1_elig_rule_order ⟨["fup4"], []⟩ "random_report.xlsx").1 (by decide)

/-- C3: for a candidate with a resolved (and parsed) predecessor, the verdict
is decided solely by comparing the two parsed dates — a strictly later
candidate date accepts with NEWER_THAN_PREDECESSOR, an equal or earlier date
rejects with PREDECESSOR_NEWER, and in particular an equal date rejects
regardless of the version fields. -/
theorem C3_date_only_comparison (s : ConfluenceState) (f pr : String)
    (p q : ParsedName)
    (hp : parse_testfile_name f = .ok p) (hq : parse_testfile_name pr = .ok q)
    (hex : file_exists s f = false)
    (hpred : get_attachment_predecessor s f = .ok pr) (hne : pr ≠ "") :
    (file_eligible_for_upload s f = .ok ⟨true, .NEWER_THAN_PREDECESSOR⟩ ↔
      pyDateLt q.date p.date = true) ∧
    (file_eligible_for_upload s f = .ok ⟨false, .PREDECESSOR_NEWER⟩ ↔
      pyDateLt q.date p.date = false) ∧
    (p.date = q.date →
      file_eligible_for_upload s f = .ok ⟨false, .PREDECESSOR_NEWER⟩) := by
  have hd : date_is_newer f pr = .ok (pyDateLt q.date p.date) := by
    simp [date_is_newer, hp, hq]
  refine ⟨?_, ?_, ?_⟩
  · cases hb : pyDateLt q.date p.date <;>
      simp [file_eligible_for_upload, hp, hex, hpred, hne, hd, hb]
  · cases hb : pyDateLt q.date p.date <;>
      simp [file_eligible_for_upload, hp, hex, hpred, hne, hd, hb]
  · intro heq
    have hb : pyDateLt q.date p.date = false := by
      rw [heq]; simp [pyDateLt]
    simp [file_eligible_for_upload, hp, hex, hpred, hne, hd, hb]

/-- C3 witness: a candidate with the same date as its `latest`-labeled
predecessor but a different build version is rejected with
PREDECESSOR_NEWER. -/
theorem C3_date_only_comparison_witness :
    file_eligible_for_upload
      ⟨["fup4"],
       [⟨"NTG7_Module_Test_RSU_E444.303_2023-03-29_v700.208.1.xlsx", "7", ["fup4", "latest"]⟩]⟩
      "NTG7_Module_Test_RSU_E444.303_2023-03-29_v700.208.2.xlsx" =
      .ok ⟨false, .PREDECESSOR_NEWER⟩ :=
  (C3_date_only_comparison
    ⟨["fup4"],
     [⟨"NTG7_Module_Test_RSU_E444.303_2023-03-29_v700.208.1.xlsx", "7", ["fup4", "latest"]⟩]⟩
    "NTG7_Module_Test_RSU_E444.303_2023-03-29_v700.208.2.xlsx"
    "NTG7_Module_Test_RSU_E444.303_2023-03-29_v700.208.1.xlsx"
    ⟨none, "RSU", "E444.303_2023-03-29_v700.208.2", "E444.303", ⟨2023, 3, 29⟩, "v700.208.2"⟩
    ⟨none, "RSU", "E444.303_2023-03-29_v700.208.1", "E444.303", ⟨2023, 3, 29⟩, "v700.208.1"⟩
    (by decide) (by decide) (by decide) (by decide) (by decide)).2.2 rfl

/-- C4: the claim says parsing is total and never throws, with invalid
calendar dates yielding null; but on a name whose date field reads
`2023-02-30` the regex matches and the uncaught `datetime.strptime` call
raises `ValueError`, while a well-formed name parses to the expected
identifier.  This refutes the never-throws part at a concrete input. -/
theorem C4_parse_raises_on_invalid_date :
    parse_testfile_name "NTG7_Module_Test_RSU_E444.303_2023-02-30_v700.208.1.xlsx" =
      .valueError ∧
    parse_testfile_name "NTG7_Module_Test_RSU_E444.303_2023-03-29_v700.208.1.xlsx" =
      .ok ⟨none, "RSU", "E444.303_2023-03-29_v700.208.1", "E444.303", ⟨2023, 3, 29⟩,
           "v700.208.1"⟩ := by
  exact ⟨by decide, by decide⟩

/-- C7 (amended): re-ingestion is rejected with ALREADY_EXISTS exactly when
the file name is present in the session's cached attachment-title snapshot,
i.e. across sessions; the snapshot, not the live page, is what
`file_exists` consults. -/
theorem C7_reject_when_in_snapshot (s : ConfluenceState) (f : String) (p : ParsedName)
    (hp : parse_testfile_name f = .ok p) (hex : file_exists s f = true) :
    file_eligible_for_upload s f = .ok ⟨false, .ALREADY_EXISTS⟩ := by
  simp [file_eligible_for_upload, hp, hex]

/-- C7 witness: a fresh session whose snapshot contains the uploaded title
rejects the same name with ALREADY_EXISTS. -/
theorem C7_reject_when_in_snapshot_witness :
    file_eligible_for_upload
      ⟨["fup4"],
       [⟨"NTG7_Module_Test_RSU_E444.303_2023-03-29_v700.208.1.xlsx", "5", []⟩]⟩
      "NTG7_Module_Test_RSU_E444.303_2023-03-29_v700.208.1.xlsx" =
      .ok ⟨false, .ALREADY_EXISTS⟩ :=
  C7_reject_when_in_snapshot
    ⟨["fup4"],
     [⟨"NTG7_Module_Test_RSU_E444.303_2023-03-29_v700.208.1.xlsx", "5", []⟩]⟩
    "NTG7_Module_Test_RSU_E444.303_2023-03-29_v700.208.1.xlsx"
    ⟨none, "RSU", "E444.303_2023-03-29_v700.208.1", "E444.303", ⟨2023, 3, 29⟩, "v700.208.1"⟩
    (by decide) (by decide)

/-- C7 counterexample: within one session the upload does not update the
cached titles, so after a first accepted submission of a fresh file name the
second submission of the exact same name is again accepted with
NO_PREDECESSOR — not rejected with ALREADY_EXISTS as the claim states. -/
theorem C7_cex_same_session_not_rejected :
    file_eligible_for_upload ⟨["fup4"], []⟩
      "NTG7_Module_Test_RSU_E444.303_2023-03-29_v700.208.1.xlsx" =
      .ok ⟨true, .NO_PREDECESSOR⟩ ∧
    file_eligible_for_upload (state_after_send_and_label ⟨["fup4"], []⟩)
      "NTG7_Module_Test_RSU_E444.303_2023-03-29_v700.208.1.xlsx" =
      .ok ⟨true, .NO_PREDECESSOR⟩ := by
  exact ⟨by decide, by decide⟩

/-- C2 (amended): predecessor resolution does not restrict itself to the
selected release-line label: it scans the titles of all attachments carrying
ANY active label together with `latest` (concatenated per label, in label
order), returns the last one containing the search prefix, and returns the
empty string — which callers treat as "no predecessor" — when none qualify. -/
theorem C2_pred_any_active_label (s : ConfluenceState) (f : String) (p : ParsedName)
    (hp : parse_testfile_name f = .ok p) :
    get_attachment_predecessor s f =
      .ok ((((get_latest_labeled_attachments s).filter
        (fun t => strContains t (search_pfx p))).getLast?).getD "") ∧
    (∀ t, t ∈ get_latest_labeled_attachments s ↔
      ∃ l ∈ s.current_labels, ∃ a ∈ s.attachments,
        l ∈ a.labels ∧ "latest" ∈ a.labels ∧ a.title = t) := by
  constructor
  · simp [get_attachment_predecessor, hp, foldl_last_pick]
  · intro t
    constructor
    · intro h
      rw [get_latest_labeled_attachments, List.mem_map] at h
      obtain ⟨a, ha, rfl⟩ := h
      rw [List.mem_flatMap] at ha
      obtain ⟨lab, hlab, haf⟩ := ha
      rw [search_attachments_by_label, List.mem_filter] at haf
      obtain ⟨hatt, hall⟩ := haf
      simp only [parse_attachment_labels, List.all_cons, List.all_nil, Bool.and_true,
        Bool.and_eq_true, List.elem_iff] at hall
      exact ⟨lab, hlab, a, hatt, hall.1, hall.2, rfl⟩
    · rintro ⟨l, hl, a, ha, hla, hlat, rfl⟩
      rw [get_latest_labeled_attachments, List.mem_map]
      refine ⟨a, ?_, rfl⟩
      rw [List.mem_flatMap]
      refine ⟨l, hl, ?_⟩
      rw [search_attachments_by_label, List.mem_filter]
      refine ⟨ha, ?_⟩
      simp only [parse_attachment_labels, List.all_cons, List.all_nil, Bool.and_true,
        Bool.and_eq_true, List.elem_iff]
      exact ⟨hla, hlat⟩

/-- C2 witness: on a concrete state the resolver returns exactly the last
prefix-containing title among the latest-labeled attachments of all active
labels. -/
theorem C2_pred_any_active_label_witness :
    get_attachment_predecessor
      ⟨["fup4"],
       [⟨"NTG7_Module_Test_RSU_E444.300_2023-02-01_v700.200.0.xlsx", "77", ["fup4", "latest"]⟩]⟩
      "NTG7_Module_Test_RSU_E444.303_2023-03-29_v700.208.1.xlsx" =
      .ok ((((get_latest_labeled_attachments
        ⟨["fup4"],
         [⟨"NTG7_Module_Test_RSU_E444.300_2023-02-01_v700.200.0.xlsx", "77", ["fup4", "latest"]⟩]⟩).filter
          (fun t => strContains t (search_pfx
            ⟨none, "RSU", "E444.303_2023-03-29_v700.208.1", "E444.303", ⟨2023, 3, 29⟩,
             "v700.208.1"⟩))).getLast?).getD "") :=
  (C2_pred_any_active_label
    ⟨["fup4"],
     [⟨"NTG7_Module_Test_RSU_E444.300_2023-02-01_v700.200.0.xlsx", "77", ["fup4", "latest"]⟩]⟩
    "NTG7_Module_Test_RSU_E444.303_2023-03-29_v700.208.1.xlsx"
    ⟨none, "RSU", "E444.303_2023-03-29_v700.208.1", "E444.303", ⟨2023, 3, 29⟩, "v700.208.1"⟩
    (by decide)).1

/-- C2 counterexample: with two active labels, an attachment that carries the
NON-selected release-line label (`fup4`, no `star`) plus `latest`, and whose
title contains the star search prefix, is returned by the source resolver;
under the claim's algorithm (only attachments carrying the selected
star-label qualify) no attachment qualifies and the result would be null. -/
theorem C2_cex_unselected_label_qualifies :
    get_attachment_predecessor
      ⟨["fup4", "star2_fup4"],
       [⟨"NTG7_Module_Test_Star_2_RSU_E1.1_2023-01-01_v1.1.1.xlsx", "123", ["fup4", "latest"]⟩]⟩
      "NTG7_Module_Test_Star_2_RSU_E1.1_2023-02-02_v1.1.2.xlsx" =
      .ok "NTG7_Module_Test_Star_2_RSU_E1.1_2023-01-01_v1.1.1.xlsx" ∧
    specFindPredecessor
      ⟨["fup4", "star2_fup4"],
       [⟨"NTG7_Module_Test_Star_2_RSU_E1.1_2023-01-01_v1.1.1.xlsx", "123", ["fup4", "latest"]⟩]⟩
      "NTG7_Module_Test_Star_2_RSU_E1.1_2023-02-02_v1.1.2.xlsx" = none := by
  exact ⟨by decide, by decide⟩

/-- C5: the claim says the label-write step always terminates after at most 4
requests; but only 500-responses advance the retry counter, so a first 500
followed by non-500 responses keeps the loop running with any amount of fuel
(first conjunct: it literally never terminates when every retry answer is a
success), and a response sequence 500,404,404,404,500,500,500 makes the loop
issue 7 requests before stopping. -/
theorem C5_retry_loop_unbounded :
    (∀ fuel, add_label (fun i => if i = 0 then 500 else 200) fuel = none) ∧
    add_label (fun i => if i = 0 then 500 else if i ≤ 3 then 404 else 500) 50 =
      some (7, false) ∧
    4 < 7 := by
  refine ⟨?_, by decide, by decide⟩
  intro fuel
  have h500 : add_label_loop (fun i => if i = 0 then 500 else 200) fuel 1 0 500 = none :=
    add_label_loop_none_of_no500 _
      (fun i hi => by rw [if_neg (by omega)]; decide) fuel 1 0 500 (by omega) (by omega)
  simp [add_label, h500]

/-- C9 (amended): the configuration error (`UserWarning`) is raised iff the
paragraph filter finds zero matches; when the filtered matches all extract
(in particular when each uses a literal space before `(current)`), the
non-empty normalized label list is returned.  (A filter match without a
literal-space ` (current)` occurrence instead raises `TypeError`, see the
counterexample.) -/
theorem C9_labels_fatal_iff_no_match (ps : List String) :
    (get_current_labels ps = .error .userWarning ↔ ps.filter currentFilterMatch = []) ∧
    (∀ raws, extract_labels (ps.filter currentFilterMatch) = some raws →
      ps.filter currentFilterMatch ≠ [] →
      get_current_labels ps = .ok raws ∧ raws ≠ []) := by
  constructor
  · constructor
    · intro h
      cases he : extract_labels (ps.filter currentFilterMatch) with
      | none => simp [get_current_labels, he] at h
      | some labels =>
        by_cases hl : labels.isEmpty = true
        · have hlen := extract_labels_length _ _ he
          have h0 : (ps.filter currentFilterMatch).length = 0 := by
            rw [← hlen]
            simpa [List.isEmpty_iff, List.length_eq_zero] using hl
          exact List.length_eq_zero.mp h0
        · simp [get_current_labels, he, hl] at h
    · intro h
      simp [get_current_labels, h, extract_labels]
  · intro raws he hne
    have hlen := extract_labels_length _ _ he
    have hraws : raws ≠ [] := by
      intro hr
      subst hr
      exact hne (List.length_eq_zero.mp (by simpa using hlen.symm))
    refine ⟨?_, hraws⟩
    have hne3 : ¬(raws.isEmpty = true) := by simpa [List.isEmpty_iff] using hraws
    simp [get_current_labels, he, hne3]

/-- C9 witness: a page paragraph with a literal-space separator produces the
normalized singleton label list, non-empty. -/
theorem C9_labels_fatal_iff_no_match_witness :
    get_current_labels ["Star2 FUP4 (current):", "unrelated text"] = .ok ["star2_fup4"] ∧
    ["star2_fup4"] ≠ ([] : List String) :=
  (C9_labels_fatal_iff_no_match ["Star2 FUP4 (current):", "unrelated text"]).2
    ["star2_fup4"] (by decide) (by decide)

/-- C9 counterexample: a paragraph whose whitespace before `(current):` is a
tab matches the filter pattern (so at least one match exists by the code's
own criterion, and zero by the claim's literal-space reading), yet the
function neither raises the configuration error nor returns a label set — it
raises `TypeError` from the failed extraction subscript. -/
theorem C9_cex_tab_separator :
    currentFilterMatch "Star2\t(current):" = true ∧
    get_current_labels ["Star2\t(current):"] = .error .typeError := by
  exact ⟨by decide, by decide⟩

/-- Characterization of demotion in a promotion run that terminated without
an exception: the predecessor's `latest` label is removed exactly when the
label write returned `True` and a non-empty predecessor name was resolved. -/
theorem send_ok_demoted (s : ConfluenceState) (f : String) (env : PromoEnv) (fuel : Nat)
    (out : PromoOutcome) (pr : String)
    (hpred : get_attachment_predecessor s f = .ok pr)
    (hrun : send_and_label_attachment s f env fuel = some (.ok out)) :
    out.demoted.isSome = true ↔ (out.label_was_added = some true ∧ pr ≠ "") := by
  cases hpp : parse_testfile_name f with
  | noMatch => simp [get_attachment_predecessor, hpp] at hpred
  | valueError => simp [get_attachment_predecessor, hpp] at hpred
  | ok p =>
    cases hid : env.upload_id with
    | none =>
      simp only [send_and_label_attachment, hpred, hid] at hrun
      simp only [Option.some.injEq, Except.ok.injEq] at hrun
      subst hrun
      simp
    | some aid =>
      cases hhead : (main_label_filter s p).head? with
      | none => simp [send_and_label_attachment, hpred, hid, hpp, hhead] at hrun
      | some main =>
        cases hal : add_label env.statuses fuel with
        | none => simp [send_and_label_attachment, hpred, hid, hpp, hhead, hal] at hrun
        | some pb =>
          obtain ⟨posts, lwa⟩ := pb
          by_cases hc : lwa = true ∧ pr ≠ ""
          · cases hlook : search_attachment_by_name s pr with
            | none =>
              simp [send_and_label_attachment, hpred, hid, hpp, hhead, hal, hc, hlook] at hrun
            | some a =>
              simp only [send_and_label_attachment, hpred, hid, hpp, hhead, hal,
                if_pos hc, hlook] at hrun
              simp only [Option.some.injEq, Except.ok.injEq] at hrun
              subst hrun
              simp [hc.1, hc.2]
          · simp only [send_and_label_attachment, hpred, hid, hpp, hhead, hal,
              if_neg hc] at hrun
            simp only [Option.some.injEq, Except.ok.injEq] at hrun
            subst hrun
            simp only [Option.isSome_none]
            constructor
            · intro hfalse; exact absurd hfalse (by simp)
            · intro hrhs
              exact absurd ⟨by simpa using hrhs.1, hrhs.2⟩ hc

/-- C6: in an exception-free promotion run, the `latest` label is removed
from the predecessor iff the label-write step ultimately returned success and
a non-empty predecessor name was resolved before the upload; in particular a
label write answered by four consecutive 500s returns `False` after exactly 4
requests, a failed label write never demotes, and an absent predecessor never
demotes. -/
theorem C6_demote_iff_label_success (s : ConfluenceState) (f : String) (env : PromoEnv)
    (fuel : Nat) (out : PromoOutcome) (pr : String)
    (hpred : get_attachment_predecessor s f = .ok pr)
    (hrun : send_and_label_attachment s f env fuel = some (.ok out)) :
    (out.demoted.isSome = true ↔ (out.label_was_added = some true ∧ pr ≠ "")) ∧
    (∀ st : Nat → Nat, st 0 = 500 → st 1 = 500 → st 2 = 500 → st 3 = 500 →
      ∀ fl, 3 ≤ fl → add_label st fl = some (4, false)) ∧
    (out.label_was_added = some false → out.demoted = none) ∧
    (pr = "" → out.demoted = none) := by
  have hiff := send_ok_demoted s f env fuel out pr hpred hrun
  refine ⟨hiff, fun st h0 h1 h2 h3 fl hfl => add_label_four_500 st h0 h1 h2 h3 fl hfl, ?_, ?_⟩
  · intro hfalse
    cases hd : out.demoted with
    | none => rfl
    | some x =>
      have hx := hiff.mp (by simp [hd])
      rw [hfalse] at hx
      exact absurd hx.1 (by simp)
  · intro hpr
    cases hd : out.demoted with
    | none => rfl
    | some x =>
      exact absurd hpr (hiff.mp (by simp [hd])).2

/-- C6 witness: a successful single-request label write with a resolved
predecessor leads to a demotion of the predecessor's id. -/
theorem C6_demote_iff_label_success_witness :
    ((⟨"NTG7_Module_Test_RSU_E444.300_2023-02-01_v700.200.0.xlsx", some "9",
       some ["fup4", "rsu", "latest"], some true, some 1, some "77"⟩ :
       PromoOutcome).demoted.isSome = true) :=
  (C6_demote_iff_label_success
    ⟨["fup4"],
     [⟨"NTG7_Module_Test_RSU_E444.300_2023-02-01_v700.200.0.xlsx", "77", ["fup4", "latest"]⟩]⟩
    "NTG7_Module_Test_RSU_E444.303_2023-03-29_v700.208.1.xlsx"
    ⟨some "9", fun _ => 200⟩ 3
    ⟨"NTG7_Module_Test_RSU_E444.300_2023-02-01_v700.200.0.xlsx", some "9",
     some ["fup4", "rsu", "latest"], some true, some 1, some "77"⟩
    "NTG7_Module_Test_RSU_E444.300_2023-02-01_v700.200.0.xlsx"
    (by decide) (by decide)).1.mpr ⟨rfl, by decide⟩

/-- C8: when the upload yields no attachment id, the promotion returns
normally (reporting, not raising) and neither a label write nor a predecessor
demotion is recorded in the outcome. -/
theorem C8_no_upload_id_aborts (s : ConfluenceState) (f : String) (env : PromoEnv)
    (fuel : Nat) (pr : String)
    (hpred : get_attachment_predecessor s f = .ok pr)
    (hid : env.upload_id = none) :
    send_and_label_attachment s f env fuel =
      some (.ok ⟨pr, none, none, none, none, none⟩) := by
  simp [send_and_label_attachment, hpred, hid]

/-- C8 witness: a failed upload on a concrete state reports an outcome with
no labels sent and no demotion. -/
theorem C8_no_upload_id_aborts_witness :
    send_and_label_attachment ⟨["fup4"], []⟩
      "NTG7_Module_Test_RSU_E444.303_2023-03-29_v700.208.1.xlsx"
      ⟨none, fun _ => 200⟩ 3 =
      some (.ok ⟨"", none, none, none, none, none⟩) :=
  C8_no_upload_id_aborts ⟨["fup4"], []⟩
    "NTG7_Module_Test_RSU_E444.303_2023-03-29_v700.208.1.xlsx"
    ⟨none, fun _ => 200⟩ 3 "" (by decide) rfl

/-- C10: after a successful upload, the main-label selection assumes some
active label contains `star` when the parsed name has a star group (resp.
some active label does not contain it when there is none); when the
corresponding filter is empty the promotion ends in an unhandled
`IndexError` — while with no upload id the same state returns normally, so
the crash happens only after the attachment was uploaded. -/
theorem C10_label_pick_index_error (s : ConfluenceState) (f : String) (env : PromoEnv)
    (fuel : Nat) (p : ParsedName) (aid : String) (pr : String)
    (hp : parse_testfile_name f = .ok p)
    (hpred : get_attachment_predecessor s f = .ok pr)
    (hid : env.upload_id = some aid) :
    (p.star.isSome = true →
      s.current_labels.filter (fun l => strContains l "star") = [] →
      send_and_label_attachment s f env fuel = some (.error .indexError)) ∧
    (p.star = none →
      s.current_labels.filter (fun l => !(strContains l "star")) = [] →
      send_and_label_attachment s f env fuel = some (.error .indexError)) ∧
    (∀ env2 : PromoEnv, env2.upload_id = none →
      send_and_label_attachment s f env2 fuel =
        some (.ok ⟨pr, none, none, none, none, none⟩)) := by
  refine ⟨?_, ?_, ?_⟩
  · intro hs hflt
    obtain ⟨v, hv⟩ := Option.isSome_iff_exists.mp hs
    have hmf : main_label_filter s p = [] := by simp [main_label_filter, hv, hflt]
    simp [send_and_label_attachment, hpred, hid, hp, hmf]
  · intro hs hflt
    have hmf : main_label_filter s p = [] := by simp [main_label_filter, hs, hflt]
    simp [send_and_label_attachment, hpred, hid, hp, hmf]
  · intro env2 hid2
    simp [send_and_label_attachment, hpred, hid2]

/-- C10 witness: a star-variant file promoted while no active label contains
`star` crashes with `IndexError` after the upload. -/
theorem C10_label_pick_index_error_witness :
    send_and_label_attachment ⟨["fup4"], []⟩
      "NTG7_Module_Test_Star_2_RSU_E444.303_2023-03-29_v700.208.1.xlsx"
      ⟨some "9", fun _ => 200⟩ 3 = some (.error .indexError) :=
  (C10_label_pick_index_error ⟨["fup4"], []⟩
    "NTG7_Module_Test_Star_2_RSU_E444.303_2023-03-29_v700.208.1.xlsx"
    ⟨some "9", fun _ => 200⟩ 3
    ⟨some "Star_2", "RSU", "E444.303_2023-03-29_v700.208.1", "E444.303", ⟨2023, 3, 29⟩,
     "v700.208.1"⟩
    "9" "" (by decide) (by decide) rfl).1 (by decide) (by decide)

end JCI
